import Mathlib

/-!
Verification development for the page-analysis and element-resolution engine
of the scriptforge repository.

The definitions below are a shallow embedding of the in-page JavaScript of
`src/services/NLPService.ts` (selector synthesis, interactive-element
enumeration, DOM summarization) and of `src/services/ContextAwareNLPService.ts`
(action filtering and candidate scoring).  JavaScript strings are modelled by
Lean `String`; a JS value that is `undefined`/`null` or the empty string (both
falsy for the truthiness tests the code performs on attributes) is modelled by
`""` where the code only ever tests truthiness, and by `Option String` where
the record genuinely distinguishes absence (`x || undefined`).
-/

namespace ScriptForge

/-- Model of `String.prototype.toLowerCase`: lower-case every character
(the source pages are ASCII-oriented; `Char.toLower` agrees with JS there). -/
def jsToLower (s : String) : String := String.mk (s.data.map Char.toLower)

/-- Does `pat` occur as a contiguous run at the front of `hay`? -/
def startsList : List Char → List Char → Bool
  | [], _ => true
  | _ :: _, [] => false
  | a :: as, b :: bs => a == b && startsList as bs

/-- Model of `String.prototype.includes`: `pat` occurs contiguously in `hay`. -/
def hasSubList (pat : List Char) : List Char → Bool
  | [] => startsList pat []
  | c :: rest => startsList pat (c :: rest) || hasSubList pat rest

/-- `jsIncludes hay pat` models `hay.includes(pat)`. -/
def jsIncludes (hay pat : String) : Bool := hasSubList pat.data hay.data

/-- Model of `String.prototype.trim`: strip leading and trailing
whitespace. -/
def jsTrim (s : String) : String :=
  String.mk
    (((s.data.dropWhile Char.isWhitespace).reverse.dropWhile
      Char.isWhitespace).reverse)

/-- Model of `Array.prototype.join(sep)`. -/
def joinSep (sep : String) : List String → String
  | [] => ""
  | [s] => s
  | s :: t :: rest => s ++ sep ++ joinSep sep (t :: rest)

/-- Characters matched by the class-escaping regex
`([:\[\](){},.>~+\s])` in `generateSelector` (whitespace written out). -/
def isSelectorSpecial (c : Char) : Bool :=
  c == ':' || c == '[' || c == ']' || c == '(' || c == ')' || c == '\x7b' ||
  c == '\x7d' || c == ',' || c == '.' || c == '>' || c == '~' || c == '+' ||
  c.isWhitespace

/-- `cls.replace(/([:\[\](){},.>~+\s])/g, '\\\\$1')`: every special character
is preceded by the two-character replacement `\\` (the TS literal denotes two
backslashes at runtime). -/
def escapeClass (cls : String) : String :=
  String.mk (cls.data.flatMap (fun c =>
    if isSelectorSpecial c then ['\\', '\\', c] else [c]))

/-- The class-intersection selector `.${escapedClasses.join('.')}`. -/
def classSelectorOf (classes : List String) : String :=
  "." ++ joinSep "." (classes.map escapeClass)

/-- The test-id selector `[data-testid="${v}"]`. -/
def testIdSelectorOf (v : String) : String := "[data-testid=\"" ++ v ++ "\"]"

/-- The role selector `[role="${role}"]:has-text("${text}")`. -/
def roleSelectorOf (role text : String) : String :=
  "[role=\"" ++ role ++ "\"]:has-text(\"" ++ text ++ "\")"

/-- The attribute reads `generateSelector` performs on the element itself.
Attribute fields use `""` for an absent (or empty, hence falsy) attribute,
exactly matching the JS truthiness tests `if (el.getAttribute(...))`,
`if (el.id)`, `if (... && innerText)`. -/
structure ElemData where
  tagName : String
  id : String
  classes : List String
  testId : String
  role : String
  innerText : String
  onclick : String
  deriving Repr, DecidableEq

/-- One `current` value visited by the structural-path `while` loop:
its tag, its id, the tag names of `current.parentElement.children` in order
(`[]` when there is no parent element), and the position of `current` in that
sibling list. -/
structure Level where
  tagName : String
  id : String
  siblings : List String
  idx : Nat
  deriving Repr, DecidableEq

/-- The document oracle: `qsc sel` is `some n` when
`document.querySelectorAll(sel)` returns `n` nodes, and `none` when the
selector fails to parse (`querySelector` throws a caught `SyntaxError`). -/
structure Doc where
  qsc : String → Option Nat

/-- `siblings.filter(s => s.tagName === current.tagName).length`. -/
def sameTagCount (lv : Level) : Nat :=
  (lv.siblings.filter (fun s => s == lv.tagName)).length

/-- `sameTagSiblings.indexOf(current) + 1`: one plus the number of same-tag
siblings occurring strictly before `current`. -/
def sameTagIndex (lv : Level) : Nat :=
  ((lv.siblings.take lv.idx).filter (fun s => s == lv.tagName)).length + 1

/-- One step of the structural path: the lower-cased tag, qualified with
`:nth-of-type(index)` exactly when more than one same-tag sibling exists. -/
def stepOf (lv : Level) : String :=
  jsToLower lv.tagName ++
    (if 1 < sameTagCount lv then
      ":nth-of-type(" ++ toString (sameTagIndex lv) ++ ")"
    else "")

/-- The `while (current && current !== document.body)` loop with its `path`
accumulator: `path.unshift` is modelled by consing onto the accumulator, and
an id anchors the path and breaks out of the loop. -/
def cssPathLoop : List Level → List String → List String
  | [], path => path
  | lv :: rest, path =>
    if lv.id == "" then cssPathLoop rest (stepOf lv :: path)
    else ("#" ++ lv.id) :: path

/-- The structural fallback tier: `path.join(' > ')`. -/
def structuralSelector (chain : List Level) : String :=
  joinSep " > " (cssPathLoop chain [])

/-- Tiers 4 and 5 of `generateSelector`: the role/text tier followed by the
structural path. -/
def selectorTiers45 (d : ElemData) (chain : List Level) : String :=
  if d.role ≠ "" ∧ d.innerText ≠ "" then
    let text := jsTrim d.innerText
    if text.length < 50 then roleSelectorOf d.role text
    else structuralSelector chain
  else structuralSelector chain

/-- `generateSelector` from `extractElements` in `NLPService.ts`: data-testid,
then id, then the uniqueness-checked class selector, then role plus short
text, then the structural path.  A `none` from the oracle models the caught
`querySelector` exception. -/
def generateSelector (doc : Doc) (d : ElemData) (chain : List Level) : String :=
  if d.testId ≠ "" then testIdSelectorOf d.testId
  else if d.id ≠ "" then "#" ++ d.id
  else if d.classes ≠ [] then
    if doc.qsc (classSelectorOf d.classes) = some 1 then
      classSelectorOf d.classes
    else selectorTiers45 d chain
  else selectorTiers45 d chain

/-- The interactive-set query
`'button, input, select, textarea, a, [onclick], [data-testid],
[role="button"], [role="link"]'` as a predicate on an element. -/
def matchesInteractiveQuery (d : ElemData) : Bool :=
  let t := jsToLower d.tagName
  t == "button" || t == "input" || t == "select" || t == "textarea" ||
  t == "a" || d.onclick != "" || d.testId != "" || d.role == "button" ||
  d.role == "link"

/-- Model of `target.replace(/\s+/g, '-')`: every maximal run of whitespace
becomes a single hyphen.  `inRun` records whether the previous character was
part of a whitespace run already replaced. -/
def collapseWsAux (inRun : Bool) : List Char → List Char
  | [] => []
  | c :: rest =>
    if c.isWhitespace then
      if inRun then collapseWsAux true rest
      else '-' :: collapseWsAux true rest
    else c :: collapseWsAux false rest

/-- `s.replace(/\s+/g, '-')`. -/
def collapseWs (s : String) : String := String.mk (collapseWsAux false s.data)

mutual

/-- `String.prototype.split(/\s+/)`, inside a token: accumulate characters
until a whitespace run starts. -/
def splitWsTok (cur : List Char) : List Char → List (List Char)
  | [] => [cur.reverse]
  | c :: rest =>
    if c.isWhitespace then cur.reverse :: splitWsRun rest
    else splitWsTok (c :: cur) rest

/-- `String.prototype.split(/\s+/)`, inside a whitespace run: skip the run,
emitting a trailing empty token when the input ends inside the run. -/
def splitWsRun : List Char → List (List Char)
  | [] => [[]]
  | c :: rest =>
    if c.isWhitespace then splitWsRun rest
    else splitWsTok [c] rest

end

/-- `s.split(/\s+/)` (note JS yields a leading empty token when the string
starts with whitespace, and `[""]` on the empty string). -/
def jsSplitWs (s : String) : List String := (splitWsTok [] s.data).map String.mk

/-- The element record produced by `extractElements` as consumed by
`ContextAwareNLPService`: `tag` is lower-cased, and the `x || undefined`
fields are true options (absent when the attribute is missing or empty). -/
structure ElementInfo where
  tag : String
  id : Option String
  classes : List String
  testId : Option String
  text : Option String
  placeholder : Option String
  type : Option String
  name : Option String
  isVisible : Bool
  isInteractive : Bool
  deriving Repr, DecidableEq

/-- `filterRelevantElements` from `ContextAwareNLPService.ts`: keep visible
and interactive elements, then narrow by action category. -/
def filterRelevantElements (elements : List ElementInfo) (action : String) :
    List ElementInfo :=
  let filtered := elements.filter (fun el => el.isVisible && el.isInteractive)
  if action == "click" then
    filtered.filter (fun el =>
      el.tag == "button" || el.tag == "a" || el.type == some "submit" ||
      el.type == some "button" || el.type == some "checkbox" ||
      el.type == some "radio")
  else if action == "type" || action == "fill" then
    filtered.filter (fun el =>
      (el.tag == "input" && el.type != some "submit" &&
        el.type != some "button") || el.tag == "textarea")
  else if action == "select" then
    filtered.filter (fun el => el.tag == "select")
  else filtered

/-- Visible-text channel: exact case-insensitive match scores 20, otherwise a
substring match scores 10. -/
def textScore (e : ElementInfo) (tl : String) : Nat :=
  match e.text with
  | some t => if jsToLower t == tl then 20
              else if jsIncludes (jsToLower t) tl then 10 else 0
  | none => 0

/-- Placeholder substring channel: 15. -/
def placeholderScore (e : ElementInfo) (tl : String) : Nat :=
  match e.placeholder with
  | some p => if jsIncludes (jsToLower p) tl then 15 else 0
  | none => 0

/-- Test-id substring channel (target whitespace collapsed to hyphens): 18. -/
def testIdScore (e : ElementInfo) (tl : String) : Nat :=
  match e.testId with
  | some tid => if jsIncludes (jsToLower tid) (collapseWs tl) then 18 else 0
  | none => 0

/-- Id substring channel (same hyphen normalization): 16. -/
def idScore (e : ElementInfo) (tl : String) : Nat :=
  match e.id with
  | some i => if jsIncludes (jsToLower i) (collapseWs tl) then 16 else 0
  | none => 0

/-- Name-attribute substring channel: 12. -/
def nameScore (e : ElementInfo) (tl : String) : Nat :=
  match e.name with
  | some n => if jsIncludes (jsToLower n) tl then 12 else 0
  | none => 0

/-- Element-type token channel: the type appears in the description: 5. -/
def typeScore (e : ElementInfo) (tl : String) : Nat :=
  match e.type with
  | some ty => if jsIncludes tl ty then 5 else 0
  | none => 0

/-- Tag-name token channel: the tag appears in the description: 3. -/
def tagScore (e : ElementInfo) (tl : String) : Nat :=
  if jsIncludes tl e.tag then 3 else 0

/-- Number of description words found in some class name. -/
def matchingWordCount (e : ElementInfo) (tl : String) : Nat :=
  ((jsSplitWs tl).filter (fun w =>
    e.classes.any (fun cls => jsIncludes (jsToLower cls) w))).length

/-- Class-name channel: 4 per matching description word. -/
def classScore (e : ElementInfo) (tl : String) : Nat :=
  4 * matchingWordCount e tl

/-- The score accumulation of `findBestMatchingElement`, line for line:
each `score += ...` block of the source is one summand. -/
def scoreElement (element : ElementInfo) (targetLower : String) : Nat :=
  let s0 : Nat := 0
  let s1 := s0 + (match element.text with
    | some t => if jsToLower t == targetLower then 20
                else if jsIncludes (jsToLower t) targetLower then 10 else 0
    | none => 0)
  let s2 := s1 + (match element.placeholder with
    | some p => if jsIncludes (jsToLower p) targetLower then 15 else 0
    | none => 0)
  let s3 := s2 + (match element.testId with
    | some tid => if jsIncludes (jsToLower tid) (collapseWs targetLower)
                  then 18 else 0
    | none => 0)
  let s4 := s3 + (match element.id with
    | some i => if jsIncludes (jsToLower i) (collapseWs targetLower)
                then 16 else 0
    | none => 0)
  let s5 := s4 + (match element.name with
    | some n => if jsIncludes (jsToLower n) targetLower then 12 else 0
    | none => 0)
  let s6 := s5 + (match element.type with
    | some ty => if jsIncludes targetLower ty then 5 else 0
    | none => 0)
  let s7 := s6 + (if jsIncludes targetLower element.tag then 3 else 0)
  let s8 := s7 + 4 * matchingWordCount element targetLower
  s8

/-- The scored candidate list: filter, then pair each element with its score
against the lower-cased description. -/
def scoredList (target : String) (elements : List ElementInfo)
    (action : String) : List (ElementInfo × Nat) :=
  (filterRelevantElements elements action).map
    (fun e => (e, scoreElement e (jsToLower target)))

/-- Insert into a descending-sorted list, before the first entry of smaller
or equal score: the stable position `Array.prototype.sort` with comparator
`(a, b) => b.score - a.score` assigns to an element inserted from the left. -/
def sortStep (x : ElementInfo × Nat) :
    List (ElementInfo × Nat) → List (ElementInfo × Nat)
  | [] => [x]
  | y :: rest => if y.2 ≤ x.2 then x :: y :: rest else y :: sortStep x rest

/-- Stable descending sort by score (ES2019 `Array.prototype.sort` is
stable; insertion sort realizes the same unique stable order). -/
def sortByScoreDesc : List (ElementInfo × Nat) → List (ElementInfo × Nat)
  | [] => []
  | x :: rest => sortStep x (sortByScoreDesc rest)

/-- `findBestMatchingElement`: sort the scored candidates descending and
return the top element when its score reaches the threshold 5, else `null`. -/
def findBestMatchingElement (target : String) (elements : List ElementInfo)
    (action : String) : Option ElementInfo :=
  match sortByScoreDesc (scoredList target elements action) with
  | [] => none
  | top :: _ => if 5 ≤ top.2 then some top.1 else none

/-- The maximal score in a scored list (`0` for the empty list). -/
def maxScoreOf (l : List (ElementInfo × Nat)) : Nat :=
  l.foldr (fun p m => max p.2 m) 0

/-- A DOM element as read by `cleanElement` in `extractDOMContent`: tag name,
attribute list (name/value pairs as `getAttribute` reports them), the node's
`textContent`, and its element children. -/
inductive RawNode : Type where
  | mk : String → List (String × String) → String → List RawNode → RawNode
  deriving Repr

/-- Tag of a raw node. -/
def RawNode.tagOf : RawNode → String
  | .mk t _ _ _ => t

/-- Attributes of a raw node. -/
def RawNode.attrsOf : RawNode → List (String × String)
  | .mk _ a _ _ => a

/-- `textContent` of a raw node. -/
def RawNode.textOf : RawNode → String
  | .mk _ _ t _ => t

/-- Element children of a raw node. -/
def RawNode.childrenOf : RawNode → List RawNode
  | .mk _ _ _ c => c

/-- A node of the summarized tree built by `cleanElement`: lower-cased tag,
retained attributes, optional retained leaf text, retained children (the
`children` key is absent exactly when this list is empty). -/
inductive CleanNode : Type where
  | mk : String → List (String × String) → Option String → List CleanNode →
      CleanNode
  deriving Repr

/-- Retained attributes of a summarized node. -/
def CleanNode.attrsOf : CleanNode → List (String × String)
  | .mk _ a _ _ => a

/-- Retained text of a summarized node. -/
def CleanNode.textOf : CleanNode → Option String
  | .mk _ _ t _ => t

/-- Retained children of a summarized node. -/
def CleanNode.childrenOf : CleanNode → List CleanNode
  | .mk _ _ _ c => c

/-- The attribute allow-list `importantAttrs` of `extractDOMContent`. -/
def importantAttrs : List String :=
  ["id", "class", "data-testid", "name", "type", "placeholder",
   "aria-label", "role", "href", "value", "for", "title"]

mutual

/-- `cleanElement` from `extractDOMContent` in `NLPService.ts`: `null` for
script/style, otherwise the tag, the truthy allow-listed attributes, trimmed
leaf text of length strictly between 0 and 200, and the cleaned children with
`null` results filtered out. -/
def cleanElement : RawNode → Option CleanNode
  | .mk tag attrs textContent children =>
    let tagName := jsToLower tag
    if tagName == "script" || tagName == "style" then none
    else
      let kept := importantAttrs.filterMap (fun a =>
        match attrs.lookup a with
        | some v => if v == "" then none else some (a, v)
        | none => none)
      let text :=
        if children.isEmpty then
          let t := jsTrim textContent
          if 0 < t.length ∧ t.length < 200 then some t else none
        else none
      some (CleanNode.mk tagName kept text (cleanChildren children))

/-- `children.map(cleanElement).filter(c => c !== null)`. -/
def cleanChildren : List RawNode → List CleanNode
  | [] => []
  | c :: rest =>
    match cleanElement c with
    | none => cleanChildren rest
    | some n => n :: cleanChildren rest

end

/-- A summarized node is "nothing" when it has no retained attributes, no
retained text and no retained descendants. -/
def isNothingNode (n : CleanNode) : Bool :=
  n.attrsOf.isEmpty && n.textOf.isNone && n.childrenOf.isEmpty

mutual

/-- No node anywhere in this summarized tree keeps a child that reduces to
nothing. -/
def goodTree : CleanNode → Bool
  | .mk _ _ _ children => goodForest children

/-- `goodTree` over a list of summarized children. -/
def goodForest : List CleanNode → Bool
  | [] => true
  | c :: rest => !isNothingNode c && goodTree c && goodForest rest

end

/-- `goodTree` lifted to the result of `cleanElement`. -/
def goodTreeOpt : Option CleanNode → Bool
  | none => true
  | some n => goodTree n

/-- The character budget of `extractDOMContent` (`maxLength = 50000`). -/
def maxDomLength : Nat := 50000

/-- The truncation marker appended by `extractDOMContent`. -/
def truncationMarker : String := "\n... (truncated)"

/-- Model of `domContent.substring(0, n)` (JS strings as char sequences). -/
def jsSubstring (s : String) (n : Nat) : String := String.mk (s.data.take n)

/-- The final size-limiting stage of `extractDOMContent`, applied to the
serialized summary string. -/
def limitDOMContent (s : String) : String :=
  if s.length > maxDomLength then
    jsSubstring s maxDomLength ++ truncationMarker
  else s

/-- C1: selector synthesis applies its tiers in a fixed priority order, first
applicable wins: a present (nonempty) data-testid yields the attribute
selector; otherwise a present id yields the id selector; otherwise a
non-empty class list whose escaped intersection selector matches exactly one
node yields that selector; otherwise a role together with nonempty raw text
whose trimmed form is shorter than 50 characters yields the role/text
selector; otherwise the structural tag path is returned, so a later tier's
result is never returned when an earlier tier applies. -/
theorem C1_selector_priority (doc : Doc) (d : ElemData) (chain : List Level) :
    (d.testId ≠ "" → generateSelector doc d chain = testIdSelectorOf d.testId)
    ∧ (d.testId = "" → d.id ≠ "" →
        generateSelector doc d chain = "#" ++ d.id)
    ∧ (d.testId = "" → d.id = "" → d.classes ≠ [] →
        doc.qsc (classSelectorOf d.classes) = some 1 →
        generateSelector doc d chain = classSelectorOf d.classes)
    ∧ (d.testId = "" → d.id = "" →
        (d.classes = [] ∨ doc.qsc (classSelectorOf d.classes) ≠ some 1) →
        d.role ≠ "" → d.innerText ≠ "" → (jsTrim d.innerText).length < 50 →
        generateSelector doc d chain = roleSelectorOf d.role (jsTrim d.innerText))
    ∧ (d.testId = "" → d.id = "" →
        (d.classes = [] ∨ doc.qsc (classSelectorOf d.classes) ≠ some 1) →
        ¬(d.role ≠ "" ∧ d.innerText ≠ "" ∧ (jsTrim d.innerText).length < 50) →
        generateSelector doc d chain = structuralSelector chain) := by
  refine ⟨?_, ?_, ?_, ?_, ?_⟩
  · intro h1
    simp [generateSelector, h1]
  · intro h1 h2
    simp [generateSelector, h1, h2]
  · intro h1 h2 h3 hq
    simp [generateSelector, h1, h2, h3, hq]
  · intro h1 h2 h3 hr ht hl
    rcases h3 with h3 | h3 <;>
      simp [generateSelector, selectorTiers45, h1, h2, h3, hr, ht, hl]
  · intro h1 h2 h3 h4
    have h45 : selectorTiers45 d chain = structuralSelector chain := by
      by_cases hc : d.role ≠ "" ∧ d.innerText ≠ ""
      · have hlen : ¬ (jsTrim d.innerText).length < 50 := by
          intro hl
          exact h4 ⟨hc.1, hc.2, hl⟩
        simp [selectorTiers45, hc, hlen]
      · simp [selectorTiers45, hc]
    rcases h3 with h3 | h3 <;>
      simp [generateSelector, h1, h2, h3, h45]

/-- C1 witness: an element carrying a data-testid receives the attribute
selector. -/
theorem C1_witness :
    generateSelector ⟨fun _ => some 0⟩
      ⟨"BUTTON", "b1", ["btn"], "save-btn", "button", "Save", ""⟩ [] =
      testIdSelectorOf "save-btn" :=
  (C1_selector_priority ⟨fun _ => some 0⟩
    ⟨"BUTTON", "b1", ["btn"], "save-btn", "button", "Save", ""⟩ []).1
    (by decide)

/-- Well-formed walk chain: every visited element has a real tag name whose
lower-cased form does not begin with `'.'` (true of every HTML document). -/
def wfChain (chain : List Level) : Prop :=
  ∀ lv ∈ chain, lv.tagName ≠ "" ∧ (jsToLower lv.tagName).data.head? ≠ some '.'

theorem str_eq_iff_data {s t : String} : s = t ↔ s.data = t.data :=
  String.ext_iff

theorem cssPathLoop_forall {P : String → Prop} :
    ∀ (chain : List Level) (acc : List String),
    (∀ lv ∈ chain, P (stepOf lv) ∧ P ("#" ++ lv.id)) →
    (∀ s ∈ acc, P s) →
    ∀ s ∈ cssPathLoop chain acc, P s := by
  intro chain
  induction chain with
  | nil =>
    intro acc _ hacc s hs
    exact hacc s hs
  | cons lv rest ih =>
    intro acc h hacc s hs
    unfold cssPathLoop at hs
    by_cases hid : lv.id == ""
    · rw [if_pos hid] at hs
      refine ih (stepOf lv :: acc) ?_ ?_ s hs
      · intro l hl
        exact h l (List.mem_cons_of_mem lv hl)
      · intro t ht
        rcases List.mem_cons.mp ht with h1 | h1
        · exact h1 ▸ (h lv (List.mem_cons_self lv rest)).1
        · exact hacc t h1
    · rw [if_neg hid] at hs
      rcases List.mem_cons.mp hs with h1 | h1
      · exact h1 ▸ (h lv (List.mem_cons_self lv rest)).2
      · exact hacc s h1

theorem cssPathLoop_ne_nil (chain : List Level) (acc : List String)
    (h : chain ≠ [] ∨ acc ≠ []) : cssPathLoop chain acc ≠ [] := by
  induction chain generalizing acc with
  | nil =>
    rcases h with h | h
    · exact absurd rfl h
    · simpa [cssPathLoop] using h
  | cons lv rest ih =>
    unfold cssPathLoop
    by_cases hid : lv.id == ""
    · rw [if_pos hid]
      exact ih (stepOf lv :: acc) (Or.inr (by simp))
    · rw [if_neg hid]
      simp

theorem joinSep_cons_head (sep : String) (s : String) (rest : List String)
    (hs : s.data ≠ []) :
    (joinSep sep (s :: rest)).data.head? = s.data.head? := by
  rcases rest with _ | ⟨t, r⟩
  · rfl
  · show ((s ++ sep) ++ joinSep sep (t :: r)).data.head? = s.data.head?
    rcases hd : s.data with _ | ⟨c, cs⟩
    · exact absurd hd hs
    · simp [String.data_append, hd]

theorem joinSep_ne_empty (sep : String) (l : List String) (hl : l ≠ [])
    (h : ∀ s ∈ l, s ≠ "") : joinSep sep l ≠ "" := by
  rcases l with _ | ⟨s, rest⟩
  · exact absurd rfl hl
  · have hs : s.data ≠ [] := by
      intro hd
      exact h s (List.mem_cons_self s rest) (str_eq_iff_data.mpr hd)
    intro hcontra
    have := congrArg (fun u => u.data.head?) hcontra
    simp only at this
    rw [joinSep_cons_head sep s rest hs] at this
    rcases hd : s.data with _ | ⟨c, cs⟩
    · exact hs hd
    · rw [hd] at this
      simp at this

theorem classSelectorOf_head (classes : List String) :
    (classSelectorOf classes).data.head? = some '.' := by
  show (("." : String) ++ joinSep "." (classes.map escapeClass)).data.head? =
    some '.'
  simp [String.data_append]

theorem stepOf_data_ne_nil (lv : Level) (h : lv.tagName ≠ "") :
    (stepOf lv).data ≠ [] := by
  unfold stepOf
  have htag : (jsToLower lv.tagName).data ≠ [] := by
    show (lv.tagName.data.map Char.toLower) ≠ []
    simp only [ne_eq, List.map_eq_nil_iff]
    intro hd
    exact h (str_eq_iff_data.mpr hd)
  rw [String.data_append]
  intro hcontra
  exact htag (List.append_eq_nil.mp hcontra).1

theorem stepOf_head (lv : Level) (h : lv.tagName ≠ "") :
    (stepOf lv).data.head? = (jsToLower lv.tagName).data.head? := by
  unfold stepOf
  rcases hd : (jsToLower lv.tagName).data with _ | ⟨c, cs⟩
  · exfalso
    have : lv.tagName.data = [] := by
      have := hd
      simpa [jsToLower, List.map_eq_nil_iff] using this
    exact h (str_eq_iff_data.mpr this)
  · simp [String.data_append, hd]

theorem structuralSelector_head_ne_dot (chain : List Level)
    (hwf : wfChain chain) :
    (structuralSelector chain).data.head? ≠ some '.' := by
  unfold structuralSelector
  have hP : ∀ s ∈ cssPathLoop chain [],
      s.data ≠ [] ∧ s.data.head? ≠ some '.' := by
    refine cssPathLoop_forall chain [] ?_ ?_
    · intro lv hlv
      rcases hwf lv hlv with ⟨h1, h2⟩
      refine ⟨⟨stepOf_data_ne_nil lv h1, ?_⟩, ?_, ?_⟩
      · rw [stepOf_head lv h1]
        exact h2
      · show (("#" : String) ++ lv.id).data ≠ []
        simp [String.data_append]
      · show (("#" : String) ++ lv.id).data.head? ≠ some '.'
        simp [String.data_append]
    · intro s hs
      exact absurd hs (List.not_mem_nil s)
  rcases hcp : cssPathLoop chain [] with _ | ⟨s, rest⟩
  · simp [joinSep]
  · rcases hP s (hcp ▸ List.mem_cons_self s rest) with ⟨h1, h2⟩
    rw [joinSep_cons_head " > " s rest h1]
    exact h2

theorem selectorTiers45_head_ne_dot (d : ElemData) (chain : List Level)
    (hwf : wfChain chain) :
    (selectorTiers45 d chain).data.head? ≠ some '.' := by
  unfold selectorTiers45
  by_cases hc : d.role ≠ "" ∧ d.innerText ≠ ""
  · rw [if_pos hc]
    by_cases hl : (jsTrim d.innerText).length < 50
    · rw [if_pos hl]
      show (("[role=\"" : String) ++ d.role ++ "\"]:has-text(\"" ++
        jsTrim d.innerText ++ "\")").data.head? ≠ some '.'
      simp [String.data_append]
    · rw [if_neg hl]
      exact structuralSelector_head_ne_dot chain hwf
  · rw [if_neg hc]
    exact structuralSelector_head_ne_dot chain hwf

/-- C2: when the class tier is reached (no test-id, no id, nonempty class
list) and the document query for the escaped class-intersection selector does
not yield exactly one node — zero nodes, several nodes, or a thrown syntax
error, modelled by the oracle returning something other than `some 1` — the
synthesizer falls through to the role/structural tiers and the class selector
itself is never the result. -/
theorem C2_class_uniqueness_fallthrough (doc : Doc) (d : ElemData)
    (chain : List Level) (h1 : d.testId = "") (h2 : d.id = "")
    (h3 : d.classes ≠ [])
    (hq : doc.qsc (classSelectorOf d.classes) ≠ some 1)
    (hwf : wfChain chain) :
    generateSelector doc d chain = selectorTiers45 d chain ∧
    generateSelector doc d chain ≠ classSelectorOf d.classes := by
  have heq : generateSelector doc d chain = selectorTiers45 d chain := by
    simp [generateSelector, h1, h2, h3, hq]
  refine ⟨heq, ?_⟩
  rw [heq]
  intro hcontra
  have hhead := congrArg (fun u => u.data.head?) hcontra
  simp only at hhead
  rw [classSelectorOf_head d.classes] at hhead
  exact selectorTiers45_head_ne_dot d chain hwf hhead

/-- C2 witness: a div with a non-unique class (two matching nodes) falls
through to the structural tier. -/
theorem C2_witness :
    generateSelector ⟨fun _ => some 2⟩
      ⟨"DIV", "", ["card"], "", "", "", ""⟩
      [⟨"DIV", "", ["DIV", "DIV"], 0⟩] =
    selectorTiers45 ⟨"DIV", "", ["card"], "", "", "", ""⟩
      [⟨"DIV", "", ["DIV", "DIV"], 0⟩] ∧
    generateSelector ⟨fun _ => some 2⟩
      ⟨"DIV", "", ["card"], "", "", "", ""⟩
      [⟨"DIV", "", ["DIV", "DIV"], 0⟩] ≠ classSelectorOf ["card"] :=
  C2_class_uniqueness_fallthrough ⟨fun _ => some 2⟩
    ⟨"DIV", "", ["card"], "", "", "", ""⟩
    [⟨"DIV", "", ["DIV", "DIV"], 0⟩]
    (by decide) (by decide) (by decide) (by decide)
    (by
      intro lv hlv
      simp only [List.mem_singleton] at hlv
      subst hlv
      exact ⟨by decide, by decide⟩)

theorem structuralSelector_ne_empty (chain : List Level) (hchain : chain ≠ [])
    (htags : ∀ lv ∈ chain, lv.tagName ≠ "") :
    structuralSelector chain ≠ "" := by
  unfold structuralSelector
  apply joinSep_ne_empty
  · exact cssPathLoop_ne_nil chain [] (Or.inl hchain)
  · intro s hs
    refine cssPathLoop_forall (P := fun u => u ≠ "") chain [] ?_ ?_ s hs
    · intro lv hlv
      constructor
      · intro h
        exact stepOf_data_ne_nil lv (htags lv hlv) (str_eq_iff_data.mp h)
      · intro h
        have := congrArg String.data h
        rw [String.data_append] at this
        simp at this
    · intro t ht
      exact absurd ht (List.not_mem_nil t)

theorem selectorTiers45_ne_empty (d : ElemData) (chain : List Level)
    (hchain : chain ≠ []) (htags : ∀ lv ∈ chain, lv.tagName ≠ "") :
    selectorTiers45 d chain ≠ "" := by
  unfold selectorTiers45
  by_cases hc : d.role ≠ "" ∧ d.innerText ≠ ""
  · rw [if_pos hc]
    by_cases hl : (jsTrim d.innerText).length < 50
    · rw [if_pos hl]
      intro h
      have := congrArg String.data h
      simp [roleSelectorOf, String.data_append] at this
    · rw [if_neg hl]
      exact structuralSelector_ne_empty chain hchain htags
  · rw [if_neg hc]
    exact structuralSelector_ne_empty chain hchain htags

/-- C3 counterexample: the body element itself, carrying an `onclick`
attribute, is matched by the interactive-set query, yet `generateSelector`
returns the empty string for it: the structural `while` loop stops
immediately at `document.body`, the path is empty, and no earlier tier
applies — refuting "always returns a non-empty string". -/
theorem C3_counterexample :
    matchesInteractiveQuery ⟨"BODY", "", [], "", "", "", "doStuff()"⟩ = true ∧
    generateSelector ⟨fun _ => some 0⟩
      ⟨"BODY", "", [], "", "", "", "doStuff()"⟩ [] = "" := by
  exact ⟨by decide, by decide⟩

/-- C3 (amended): selector synthesis is deterministic and total (it is a
Lean function, so it terminates on every input), and for every element of
the interactive set other than `document.body` itself — that is, whenever
the walk chain below body is nonempty — with real (nonempty) tag names, the
returned selector string is non-empty.  On `document.body` itself the code
returns the empty string. -/
theorem C3_total_nonempty (doc : Doc) (d : ElemData) (chain : List Level)
    (hchain : chain ≠ []) (htags : ∀ lv ∈ chain, lv.tagName ≠ "") :
    generateSelector doc d chain ≠ "" := by
  unfold generateSelector
  by_cases h1 : d.testId ≠ ""
  · rw [if_pos h1]
    intro h
    have := congrArg String.data h
    simp [testIdSelectorOf, String.data_append] at this
  · rw [if_neg h1]
    by_cases h2 : d.id ≠ ""
    · rw [if_pos h2]
      intro h
      have := congrArg String.data h
      simp [String.data_append] at this
    · rw [if_neg h2]
      by_cases h3 : d.classes ≠ []
      · rw [if_pos h3]
        by_cases hq : doc.qsc (classSelectorOf d.classes) = some 1
        · rw [if_pos hq]
          intro h
          have := congrArg (fun u => u.data.head?) h
          simp only at this
          rw [classSelectorOf_head d.classes] at this
          simp at this
        · rw [if_neg hq]
          exact selectorTiers45_ne_empty d chain hchain htags
      · rw [if_neg h3]
        exact selectorTiers45_ne_empty d chain hchain htags

/-- C3 witness: a class-less, id-less button one level below body receives a
non-empty selector. -/
theorem C3_witness :
    generateSelector ⟨fun _ => some 0⟩ ⟨"BUTTON", "", [], "", "", "", ""⟩
      [⟨"BUTTON", "", ["BUTTON"], 0⟩] ≠ "" :=
  C3_total_nonempty ⟨fun _ => some 0⟩ ⟨"BUTTON", "", [], "", "", "", ""⟩
    [⟨"BUTTON", "", ["BUTTON"], 0⟩] (by decide)
    (by
      intro lv hlv
      simp only [List.mem_singleton] at hlv
      subst hlv
      decide)

/-- The structural tier as the spec's words describe its join: "Join levels
with a descendant combinator" — the CSS descendant combinator is whitespace.
Stated only for comparison against the code, which joins with `' > '`, the
child combinator. -/
def structuralSelectorSpecJoin (chain : List Level) : String :=
  joinSep " " (cssPathLoop chain [])

theorem cssPathLoop_append (pre rest : List Level) (acc : List String)
    (hpre : ∀ l ∈ pre, l.id = "") :
    cssPathLoop (pre ++ rest) acc =
      cssPathLoop rest (pre.reverse.map stepOf ++ acc) := by
  induction pre generalizing acc with
  | nil => simp
  | cons p ps ih =>
    have hp : p.id = "" := hpre p (List.mem_cons_self p ps)
    have hstep : cssPathLoop (p :: (ps ++ rest)) acc =
        cssPathLoop (ps ++ rest) (stepOf p :: acc) := by
      simp [cssPathLoop, hp]
    rw [List.cons_append, hstep,
      ih (stepOf p :: acc) (fun l hl => hpre l (List.mem_cons_of_mem p hl))]
    congr 1
    simp

/-- C4 counterexample: for a plain button inside a plain div (no test-id, id,
class, or role anywhere), the code produces `"div > button"` — the levels are
joined with the CSS child combinator `' > '` — whereas the claim's descendant
combinator (whitespace) would give `"div button"`.  The claim is false as
stated. -/
theorem C4_counterexample :
    generateSelector ⟨fun _ => some 0⟩ ⟨"BUTTON", "", [], "", "", "", ""⟩
      [⟨"BUTTON", "", ["BUTTON"], 0⟩, ⟨"DIV", "", ["DIV"], 0⟩] =
      "div > button" ∧
    structuralSelectorSpecJoin
      [⟨"BUTTON", "", ["BUTTON"], 0⟩, ⟨"DIV", "", ["DIV"], 0⟩] =
      "div button" ∧
    generateSelector ⟨fun _ => some 0⟩ ⟨"BUTTON", "", [], "", "", "", ""⟩
      [⟨"BUTTON", "", ["BUTTON"], 0⟩, ⟨"DIV", "", ["DIV"], 0⟩] ≠
    structuralSelectorSpecJoin
      [⟨"BUTTON", "", ["BUTTON"], 0⟩, ⟨"DIV", "", ["DIV"], 0⟩] := by
  refine ⟨by decide, by decide, by decide⟩

/-- C4 (amended): in the structural fallback tier — no test-id, no id, no
unique class selector, no applicable role-plus-short-text selector — the
synthesizer walks from the node toward the root (the chain stops below body,
body excluded), anchors at the first ancestor having an id discarding all
ancestors above it, qualifies a level with the 1-based same-tag sibling index
exactly when more than one same-tag sibling exists under that parent, and
joins the per-level steps with the CSS child combinator `' > '` (the spec
says descendant combinator; the code uses the child combinator). -/
theorem C4_structural_path (doc : Doc) (d : ElemData) (chain : List Level)
    (h1 : d.testId = "") (h2 : d.id = "")
    (h3 : d.classes = [] ∨ doc.qsc (classSelectorOf d.classes) ≠ some 1)
    (h4 : ¬(d.role ≠ "" ∧ d.innerText ≠ "" ∧ (jsTrim d.innerText).length < 50)) :
    generateSelector doc d chain = joinSep " > " (cssPathLoop chain []) ∧
    (∀ pre lv post, chain = pre ++ lv :: post → (∀ l ∈ pre, l.id = "") →
      lv.id ≠ "" →
      cssPathLoop chain [] = ("#" ++ lv.id) :: pre.reverse.map stepOf) ∧
    ((∀ l ∈ chain, l.id = "") →
      cssPathLoop chain [] = chain.reverse.map stepOf) ∧
    (∀ lv : Level, ¬ 1 < sameTagCount lv → stepOf lv = jsToLower lv.tagName) ∧
    (∀ lv : Level, 1 < sameTagCount lv →
      stepOf lv = jsToLower lv.tagName ++
        (":nth-of-type(" ++ toString (sameTagIndex lv) ++ ")")) := by
  refine ⟨?_, ?_, ?_, ?_, ?_⟩
  · have h45 : selectorTiers45 d chain = structuralSelector chain := by
      by_cases hc : d.role ≠ "" ∧ d.innerText ≠ ""
      · have hlen : ¬ (jsTrim d.innerText).length < 50 := by
          intro hl
          exact h4 ⟨hc.1, hc.2, hl⟩
        simp [selectorTiers45, hc, hlen]
      · simp [selectorTiers45, hc]
    have : generateSelector doc d chain = structuralSelector chain := by
      rcases h3 with h3 | h3 <;>
        simp [generateSelector, h1, h2, h3, h45]
    rw [this]
    rfl
  · intro pre lv post hch hpre hid
    rw [hch, cssPathLoop_append pre (lv :: post) [] hpre]
    unfold cssPathLoop
    rw [if_neg (by simp [hid])]
    simp
  · intro hids
    have : chain = chain ++ [] := by simp
    rw [this, cssPathLoop_append chain [] [] hids]
    simp [cssPathLoop]
  · intro lv hlt
    unfold stepOf
    rw [if_neg hlt]
    apply str_eq_iff_data.mpr
    simp [String.data_append]
  · intro lv hlt
    unfold stepOf
    rw [if_pos hlt]

/-- C4 witness: a second-of-two list item under an id-carrying list under
further ancestors anchors at the id, discards the ancestors above it, and
indexes the item. -/
theorem C4_witness :
    generateSelector ⟨fun _ => some 0⟩ ⟨"LI", "", [], "", "", "", ""⟩
      [⟨"LI", "", ["LI", "LI"], 1⟩, ⟨"UL", "menu", ["UL"], 0⟩,
       ⟨"DIV", "", ["DIV"], 0⟩] =
    joinSep " > " (cssPathLoop
      [⟨"LI", "", ["LI", "LI"], 1⟩, ⟨"UL", "menu", ["UL"], 0⟩,
       ⟨"DIV", "", ["DIV"], 0⟩] []) ∧
    cssPathLoop
      [⟨"LI", "", ["LI", "LI"], 1⟩, ⟨"UL", "menu", ["UL"], 0⟩,
       ⟨"DIV", "", ["DIV"], 0⟩] [] = ["#menu", "li:nth-of-type(2)"] := by
  constructor
  · exact (C4_structural_path ⟨fun _ => some 0⟩ ⟨"LI", "", [], "", "", "", ""⟩
      [⟨"LI", "", ["LI", "LI"], 1⟩, ⟨"UL", "menu", ["UL"], 0⟩,
       ⟨"DIV", "", ["DIV"], 0⟩]
      (by decide) (by decide) (Or.inl (by decide)) (by decide)).1
  · have := (C4_structural_path ⟨fun _ => some 0⟩ ⟨"LI", "", [], "", "", "", ""⟩
      [⟨"LI", "", ["LI", "LI"], 1⟩, ⟨"UL", "menu", ["UL"], 0⟩,
       ⟨"DIV", "", ["DIV"], 0⟩]
      (by decide) (by decide) (Or.inl (by decide)) (by decide)).2.1
      [⟨"LI", "", ["LI", "LI"], 1⟩] ⟨"UL", "menu", ["UL"], 0⟩
      [⟨"DIV", "", ["DIV"], 0⟩] rfl
      (by
        intro l hl
        simp only [List.mem_singleton] at hl
        subst hl
        rfl)
      (by decide)
    rw [this]
    decide

/-- C7: for every element list, only elements flagged both visible and
interactive are eligible for any action; for the action categories "type"
and "fill" the eligible set is exactly the visible-and-interactive input
elements whose type is neither submit nor button, plus textarea elements;
in particular a button element is never eligible for "type". -/
theorem C7_action_filtering (es : List ElementInfo) (a : String) :
    (∀ e ∈ filterRelevantElements es a,
      e.isVisible = true ∧ e.isInteractive = true) ∧
    (a = "type" ∨ a = "fill" → ∀ e, e ∈ filterRelevantElements es a ↔
      e ∈ es ∧ e.isVisible = true ∧ e.isInteractive = true ∧
      ((e.tag = "input" ∧ e.type ≠ some "submit" ∧ e.type ≠ some "button") ∨
        e.tag = "textarea")) ∧
    (∀ e ∈ filterRelevantElements es "type", e.tag ≠ "button") := by
  have hchar : ∀ b, b = "type" ∨ b = "fill" → ∀ e,
      e ∈ filterRelevantElements es b ↔
      e ∈ es ∧ e.isVisible = true ∧ e.isInteractive = true ∧
      ((e.tag = "input" ∧ e.type ≠ some "submit" ∧ e.type ≠ some "button") ∨
        e.tag = "textarea") := by
    intro b hb e
    have h1 : filterRelevantElements es b =
        (es.filter (fun el => el.isVisible && el.isInteractive)).filter
          (fun el =>
            (el.tag == "input" && el.type != some "submit" &&
              el.type != some "button") || el.tag == "textarea") := by
      rcases hb with hb | hb <;> subst hb <;> rfl
    rw [h1]
    simp only [List.mem_filter, Bool.and_eq_true, Bool.or_eq_true,
      beq_iff_eq, bne_iff_ne, ne_eq, and_assoc]
  refine ⟨?_, hchar a, ?_⟩
  · have hbase : ∀ e ∈ es.filter
        (fun el => el.isVisible && el.isInteractive),
        e.isVisible = true ∧ e.isInteractive = true := by
      intro e he
      have := (List.mem_filter.mp he).2
      simpa using this
    intro e he
    unfold filterRelevantElements at he
    split at he
    · exact hbase e (List.mem_of_mem_filter he)
    · split at he
      · exact hbase e (List.mem_of_mem_filter he)
      · split at he
        · exact hbase e (List.mem_of_mem_filter he)
        · exact hbase e he
  · intro e he
    rcases ((hchar "type" (Or.inl rfl) e).mp he).2.2.2 with h | h
    · rw [h.1]
      decide
    · rw [h]
      decide

/-- C7 witness: under action "type", a visible interactive button is
rejected while a visible interactive text input is kept. -/
theorem C7_witness :
    (⟨"button", none, [], none, some "Login", none, none, none, true, true⟩ :
        ElementInfo) ∉
      filterRelevantElements
        [⟨"button", none, [], none, some "Login", none, none, none,
          true, true⟩,
         ⟨"input", none, [], none, none, some "Email", some "text", none,
          true, true⟩] "type" ∧
    (⟨"input", none, [], none, none, some "Email", some "text", none,
        true, true⟩ : ElementInfo) ∈
      filterRelevantElements
        [⟨"button", none, [], none, some "Login", none, none, none,
          true, true⟩,
         ⟨"input", none, [], none, none, some "Email", some "text", none,
          true, true⟩] "type" := by
  constructor
  · intro hmem
    exact (C7_action_filtering
      [⟨"button", none, [], none, some "Login", none, none, none,
        true, true⟩,
       ⟨"input", none, [], none, none, some "Email", some "text", none,
        true, true⟩] "type").2.2
      ⟨"button", none, [], none, some "Login", none, none, none, true, true⟩
      hmem rfl
  · exact ((C7_action_filtering
      [⟨"button", none, [], none, some "Login", none, none, none,
        true, true⟩,
       ⟨"input", none, [], none, none, some "Email", some "text", none,
        true, true⟩] "type").2.1 (Or.inl rfl)
      ⟨"input", none, [], none, none, some "Email", some "text", none,
        true, true⟩).mpr
      (by
        refine ⟨by simp, rfl, rfl, Or.inl ⟨rfl, by decide, by decide⟩⟩)

theorem textScore_cases (e : ElementInfo) (tl : String) :
    textScore e tl = 0 ∨ textScore e tl = 10 ∨ textScore e tl = 20 := by
  cases h : e.text with
  | none => simp [textScore, h]
  | some t =>
    simp only [textScore, h]
    split_ifs <;> simp

theorem textScore_eq_twenty (e : ElementInfo) (tl : String) :
    textScore e tl = 20 ↔ e.text.map jsToLower = some tl := by
  cases h : e.text with
  | none => simp [textScore, h]
  | some t =>
    simp only [textScore, h, Option.map_some]
    split_ifs with h1 h2
    · simp only [beq_iff_eq] at h1
      simp [h1]
    · simp only [beq_iff_eq] at h1
      simp [h1]
    · simp only [beq_iff_eq] at h1
      simp [h1]

theorem testIdScore_cases (e : ElementInfo) (tl : String) :
    testIdScore e tl = 0 ∨ testIdScore e tl = 18 := by
  cases h : e.testId with
  | none => simp [testIdScore, h]
  | some t =>
    simp only [testIdScore, h]
    split_ifs <;> simp

theorem idScore_cases (e : ElementInfo) (tl : String) :
    idScore e tl = 0 ∨ idScore e tl = 16 := by
  cases h : e.id with
  | none => simp [idScore, h]
  | some t =>
    simp only [idScore, h]
    split_ifs <;> simp

theorem placeholderScore_cases (e : ElementInfo) (tl : String) :
    placeholderScore e tl = 0 ∨ placeholderScore e tl = 15 := by
  cases h : e.placeholder with
  | none => simp [placeholderScore, h]
  | some t =>
    simp only [placeholderScore, h]
    split_ifs <;> simp

theorem nameScore_cases (e : ElementInfo) (tl : String) :
    nameScore e tl = 0 ∨ nameScore e tl = 12 := by
  cases h : e.name with
  | none => simp [nameScore, h]
  | some t =>
    simp only [nameScore, h]
    split_ifs <;> simp

theorem typeScore_cases (e : ElementInfo) (tl : String) :
    typeScore e tl = 0 ∨ typeScore e tl = 5 := by
  cases h : e.type with
  | none => simp [typeScore, h]
  | some t =>
    simp only [typeScore, h]
    split_ifs <;> simp

theorem tagScore_cases (e : ElementInfo) (tl : String) :
    tagScore e tl = 0 ∨ tagScore e tl = 3 := by
  unfold tagScore
  split_ifs <;> simp

/-- The demonstration candidate for channel stacking: a button whose visible
text matches the description exactly and whose tag name occurs in the
description. -/
def demoButton : ElementInfo :=
  ⟨"button", none, [], none, some "Search Button", none, none, none,
    true, true⟩

/-- C5: the per-channel score constants preserve the documented relative
ordering, and channels are additive.  The total score decomposes into the
eight independent channels; each channel contributes either 0 or its fixed
weight (text: 20 exact / 10 substring, test-id 18, id 16, placeholder 15,
name 12, type 5, tag 3, class 4 per matching word); exact text (20) is the
highest weight, test-id (18) is just under it, id (16) is below test-id,
placeholder (15) lies strictly between text-substring (10) and text-exact
(20), text-substring is exactly half of text-exact, name (12) sits between
type and id, tag (3) is the smallest single channel; and one candidate can
collect several channels at once (the demonstration button scores
20 + 3 = 23). -/
theorem C5_scoring_weights :
    (∀ e tl, scoreElement e tl =
      textScore e tl + placeholderScore e tl + testIdScore e tl +
      idScore e tl + nameScore e tl + typeScore e tl + tagScore e tl +
      classScore e tl) ∧
    (∀ e tl, textScore e tl = 0 ∨ textScore e tl = 10 ∨
      textScore e tl = 20) ∧
    (∀ e tl, textScore e tl = 20 ↔ e.text.map jsToLower = some tl) ∧
    (∀ e tl, testIdScore e tl = 0 ∨ testIdScore e tl = 18) ∧
    (∀ e tl, idScore e tl = 0 ∨ idScore e tl = 16) ∧
    (∀ e tl, placeholderScore e tl = 0 ∨ placeholderScore e tl = 15) ∧
    (∀ e tl, nameScore e tl = 0 ∨ nameScore e tl = 12) ∧
    (∀ e tl, typeScore e tl = 0 ∨ typeScore e tl = 5) ∧
    (∀ e tl, tagScore e tl = 0 ∨ tagScore e tl = 3) ∧
    (∀ e tl, classScore e tl = 4 * matchingWordCount e tl) ∧
    (∀ e tl e2 tl2, testIdScore e tl ≠ 0 → textScore e2 tl2 = 20 →
      testIdScore e tl < textScore e2 tl2) ∧
    (∀ e tl e2 tl2, idScore e tl ≠ 0 → testIdScore e2 tl2 ≠ 0 →
      idScore e tl < testIdScore e2 tl2) ∧
    (∀ e tl e2 tl2, placeholderScore e tl ≠ 0 → textScore e2 tl2 = 10 →
      textScore e2 tl2 < placeholderScore e tl) ∧
    (∀ e tl e2 tl2, placeholderScore e tl ≠ 0 → textScore e2 tl2 = 20 →
      placeholderScore e tl < textScore e2 tl2) ∧
    (∀ e tl e2 tl2, textScore e tl = 10 → textScore e2 tl2 = 20 →
      2 * textScore e tl = textScore e2 tl2) ∧
    (∀ e tl e2 tl2, typeScore e tl ≠ 0 → nameScore e2 tl2 ≠ 0 →
      typeScore e tl < nameScore e2 tl2) ∧
    (∀ e tl e2 tl2, nameScore e tl ≠ 0 → idScore e2 tl2 ≠ 0 →
      nameScore e tl < idScore e2 tl2) ∧
    (∀ e tl e2 tl2, tagScore e tl ≠ 0 → typeScore e2 tl2 ≠ 0 →
      tagScore e tl < typeScore e2 tl2) ∧
    (∀ e tl e2 tl2, tagScore e tl ≠ 0 → classScore e2 tl2 ≠ 0 →
      tagScore e tl < classScore e2 tl2) ∧
    (scoreElement demoButton "search button" = 23 ∧
      textScore demoButton "search button" = 20 ∧
      tagScore demoButton "search button" = 3) := by
  refine ⟨?_, textScore_cases, textScore_eq_twenty, testIdScore_cases,
    idScore_cases, placeholderScore_cases, nameScore_cases, typeScore_cases,
    tagScore_cases, fun e tl => rfl, ?_, ?_, ?_, ?_, ?_, ?_, ?_, ?_, ?_,
    by decide, by decide, by decide⟩
  · intro e tl
    simp only [scoreElement, textScore, placeholderScore, testIdScore,
      idScore, nameScore, typeScore, tagScore, classScore]
    omega
  · intro e tl e2 tl2 h1 h2
    rcases testIdScore_cases e tl with h | h <;> omega
  · intro e tl e2 tl2 h1 h2
    rcases idScore_cases e tl with h | h <;>
      rcases testIdScore_cases e2 tl2 with h' | h' <;> omega
  · intro e tl e2 tl2 h1 h2
    rcases placeholderScore_cases e tl with h | h <;> omega
  · intro e tl e2 tl2 h1 h2
    rcases placeholderScore_cases e tl with h | h <;> omega
  · intro e tl e2 tl2 h1 h2
    omega
  · intro e tl e2 tl2 h1 h2
    rcases typeScore_cases e tl with h | h <;>
      rcases nameScore_cases e2 tl2 with h' | h' <;> omega
  · intro e tl e2 tl2 h1 h2
    rcases nameScore_cases e tl with h | h <;>
      rcases idScore_cases e2 tl2 with h' | h' <;> omega
  · intro e tl e2 tl2 h1 h2
    rcases tagScore_cases e tl with h | h <;>
      rcases typeScore_cases e2 tl2 with h' | h' <;> omega
  · intro e tl e2 tl2 h1 h2
    rcases tagScore_cases e tl with h | h
    · omega
    · have h4 : classScore e2 tl2 = 4 * matchingWordCount e2 tl2 := rfl
      omega

/-- C5 witness: a concrete test-id candidate scores strictly below a
concrete exact-text candidate. -/
theorem C5_witness :
    testIdScore
      ⟨"button", none, [], some "login-btn", none, none, none, none,
        true, true⟩ "login" <
    textScore
      ⟨"button", none, [], none, some "Login", none, none, none,
        true, true⟩ "login" :=
  C5_scoring_weights.2.2.2.2.2.2.2.2.2.2.1
    ⟨"button", none, [], some "login-btn", none, none, none, none,
      true, true⟩ "login"
    ⟨"button", none, [], none, some "Login", none, none, none,
      true, true⟩ "login"
    (by decide) (by decide)

theorem maxScoreOf_cons (x : ElementInfo × Nat) (xs : List (ElementInfo × Nat)) :
    maxScoreOf (x :: xs) = max x.2 (maxScoreOf xs) := rfl

theorem sortByScoreDesc_max_head :
    ∀ l : List (ElementInfo × Nat), l ≠ [] →
    ∃ q rest, sortByScoreDesc l = q :: rest ∧ q.2 = maxScoreOf l := by
  intro l
  induction l with
  | nil => intro h; exact absurd rfl h
  | cons x xs ih =>
    intro _
    by_cases hxs : xs = []
    · subst hxs
      exact ⟨x, [], rfl, by simp [maxScoreOf]⟩
    · obtain ⟨q, rest, hq, hqmax⟩ := ih hxs
      show ∃ q' rest', sortStep x (sortByScoreDesc xs) = q' :: rest' ∧ _
      rw [hq]
      by_cases hle : q.2 ≤ x.2
      · refine ⟨x, q :: rest, by simp [sortStep, hle], ?_⟩
        rw [maxScoreOf_cons, ← hqmax]
        omega
      · refine ⟨q, sortStep x rest, by simp [sortStep, hle], ?_⟩
        rw [maxScoreOf_cons, ← hqmax]
        omega

theorem sortByScoreDesc_head_find :
    ∀ l : List (ElementInfo × Nat),
    (sortByScoreDesc l).head? = l.find? (fun p => p.2 == maxScoreOf l) := by
  intro l
  induction l with
  | nil => rfl
  | cons x xs ih =>
    by_cases hxs : xs = []
    · subst hxs
      show (sortStep x (sortByScoreDesc [])).head? = _
      simp [sortByScoreDesc, sortStep, List.find?, maxScoreOf]
    · obtain ⟨q, rest, hq, hqmax⟩ := sortByScoreDesc_max_head xs hxs
      show (sortStep x (sortByScoreDesc xs)).head? = _
      rw [hq]
      by_cases hle : q.2 ≤ x.2
      · have hmax : maxScoreOf (x :: xs) = x.2 := by
          rw [maxScoreOf_cons, ← hqmax]
          omega
        rw [hmax]
        simp [sortStep, hle]
      · have hmax : maxScoreOf (x :: xs) = maxScoreOf xs := by
          rw [maxScoreOf_cons, ← hqmax]
          omega
        rw [hmax]
        have hxne : (x.2 == maxScoreOf xs) = false := by
          rw [← hqmax]
          simp only [beq_eq_false_iff_ne, ne_eq]
          omega
        rw [List.find?_cons_of_neg _ (by simp [hxne])]
        rw [← ih, hq]
        simp [sortStep, hle]

/-- C6: the matcher sorts the scored candidates descending and returns the
top-ranked element exactly when the top score reaches the minimum-confidence
threshold 5; otherwise it returns the no-match sentinel `none`.  The matcher
is a total function (never throws): its only outcomes are `some` of a
maximal-score candidate at or above threshold, or `none` when there is no
candidate or the best score is below threshold. -/
theorem C6_selection_threshold (target : String) (elements : List ElementInfo)
    (action : String) :
    (findBestMatchingElement target elements action = none ↔
      (scoredList target elements action = [] ∨
        maxScoreOf (scoredList target elements action) < 5)) ∧
    (∀ e, findBestMatchingElement target elements action = some e →
      ∃ p, p ∈ scoredList target elements action ∧ p.1 = e ∧
        p.2 = maxScoreOf (scoredList target elements action) ∧ 5 ≤ p.2) := by
  by_cases hS : scoredList target elements action = []
  · have hsort : sortByScoreDesc (scoredList target elements action) = [] := by
      rw [hS]
      rfl
    have hfb : findBestMatchingElement target elements action = none := by
      unfold findBestMatchingElement
      rw [hsort]
    refine ⟨?_, ?_⟩
    · simp [hfb, hS]
    · intro e he
      rw [hfb] at he
      exact absurd he (by simp)
  · obtain ⟨q, rest, hq, hqmax⟩ :=
      sortByScoreDesc_max_head (scoredList target elements action) hS
    have hfb : findBestMatchingElement target elements action =
        if 5 ≤ q.2 then some q.1 else none := by
      unfold findBestMatchingElement
      rw [hq]
    have hqmem : q ∈ scoredList target elements action := by
      have := sortByScoreDesc_head_find (scoredList target elements action)
      rw [hq] at this
      simp only [List.head?_cons] at this
      exact List.mem_of_find?_eq_some this.symm
    refine ⟨?_, ?_⟩
    · rw [hfb]
      by_cases hthr : 5 ≤ q.2
      · simp only [if_pos hthr]
        constructor
        · intro h
          exact absurd h (by simp)
        · intro h
          rcases h with h | h
          · exact absurd h hS
          · omega
      · rw [if_neg hthr]
        constructor
        · intro _
          right
          omega
        · intro _
          rfl
    · intro e he
      rw [hfb] at he
      by_cases hthr : 5 ≤ q.2
      · rw [if_pos hthr] at he
        refine ⟨q, hqmem, ?_, hqmax, hthr⟩
        injection he
      · rw [if_neg hthr] at he
        exact absurd he (by simp)

/-- C6 witness: the description "quux" against a lone login button scores
below the threshold, so the matcher returns the no-match sentinel rather
than failing. -/
theorem C6_witness :
    findBestMatchingElement "quux"
      [⟨"button", none, [], none, some "Login", none, none, none,
        true, true⟩] "click" = none :=
  (C6_selection_threshold "quux"
    [⟨"button", none, [], none, some "Login", none, none, none,
      true, true⟩] "click").1.mpr (Or.inr (by decide))

/-- C10: when several eligible candidates tie at the maximal score and that
score meets the threshold, the matcher returns the one occurring earliest in
the candidate list (document order): the comparison sort is stable, so the
head of the sorted list is the first candidate attaining the maximum, which
is what `List.find?` on the unsorted scored list returns. -/
theorem C10_stable_tie_break (target : String) (elements : List ElementInfo)
    (action : String) (p : ElementInfo × Nat)
    (hfind : (scoredList target elements action).find?
      (fun q => q.2 == maxScoreOf (scoredList target elements action)) =
      some p)
    (hthr : 5 ≤ p.2) :
    findBestMatchingElement target elements action = some p.1 := by
  have hhead := sortByScoreDesc_head_find (scoredList target elements action)
  rw [hfind] at hhead
  rcases hsort : sortByScoreDesc (scoredList target elements action) with
    _ | ⟨q, rest⟩
  · rw [hsort] at hhead
    exact absurd hhead (by simp)
  · rw [hsort] at hhead
    simp only [List.head?_cons] at hhead
    injection hhead with hq
    unfold findBestMatchingElement
    rw [hsort, hq]
    show (if 5 ≤ p.2 then some p.1 else none) = some p.1
    rw [if_pos hthr]

/-- C10 witness: two identically scored login buttons (differing only in an
id attribute that contributes nothing to the score); the matcher returns the
first. -/
theorem C10_witness :
    findBestMatchingElement "login"
      [⟨"button", some "a", [], none, some "Login", none, none, none,
        true, true⟩,
       ⟨"button", some "b", [], none, some "Login", none, none, none,
        true, true⟩] "click" =
    some ⟨"button", some "a", [], none, some "Login", none, none, none,
      true, true⟩ :=
  C10_stable_tie_break "login"
    [⟨"button", some "a", [], none, some "Login", none, none, none,
      true, true⟩,
     ⟨"button", some "b", [], none, some "Login", none, none, none,
      true, true⟩] "click"
    (⟨"button", some "a", [], none, some "Login", none, none, none,
      true, true⟩, 20)
    (by decide) (by decide)

/-- C8 counterexample: a serialized summary of 50001 characters yields an
output of 50016 characters — the first 50000 characters plus the 16-character
truncation marker — which exceeds the configured budget of 50000, refuting
"the output string never exceeds the configured character budget". -/
theorem C8_counterexample :
    maxDomLength <
      (limitDOMContent (String.mk (List.replicate 50001 'a'))).length := by
  have hlen : (String.mk (List.replicate 50001 'a')).length = 50001 := by
    rw [String.length_mk, List.length_replicate]
  have hcond : (String.mk (List.replicate 50001 'a')).length > maxDomLength := by
    rw [hlen]
    decide
  rw [limitDOMContent, if_pos hcond, String.length_append]
  have h1 : (jsSubstring (String.mk (List.replicate 50001 'a'))
      maxDomLength).length = 50000 := by
    rw [jsSubstring, String.length_mk]
    show ((List.replicate 50001 'a').take maxDomLength).length = 50000
    rw [List.length_take, List.length_replicate]
    decide
  have h2 : truncationMarker.length = 16 := by decide
  rw [h1, h2]
  decide

/-- C8 (amended): the size-limiting stage caps the output at the budget plus
the 16-character truncation marker (50016 in total): input at or below the
50000-character budget passes through unchanged, and longer input is cut to
exactly the first 50000 characters with the truncation marker appended, so
the truncated output — while itself 16 characters over the budget — always
ends with the marker and remains a plain string. -/
theorem C8_truncation_bound (s : String) :
    (limitDOMContent s).length ≤ maxDomLength + truncationMarker.length ∧
    (s.length ≤ maxDomLength → limitDOMContent s = s) ∧
    (maxDomLength < s.length →
      limitDOMContent s = jsSubstring s maxDomLength ++ truncationMarker ∧
      ∃ t, limitDOMContent s = t ++ truncationMarker) := by
  by_cases h : s.length > maxDomLength
  · rw [limitDOMContent, if_pos h]
    have hsub : (jsSubstring s maxDomLength).length ≤ maxDomLength := by
      rw [jsSubstring, String.length_mk, List.length_take]
      exact min_le_left _ _
    refine ⟨?_, ?_, ?_⟩
    · rw [String.length_append]
      omega
    · intro hle
      omega
    · intro _
      exact ⟨rfl, jsSubstring s maxDomLength, rfl⟩
  · rw [limitDOMContent, if_neg h]
    refine ⟨by omega, fun _ => rfl, fun hlt => absurd hlt (by omega)⟩

/-- C8 witness: a short serialized summary passes through untouched. -/
theorem C8_witness :
    limitDOMContent "tag: body" = "tag: body" :=
  (C8_truncation_bound "tag: body").2.1 (by decide)

theorem cleanElement_none_iff (raw : RawNode) :
    cleanElement raw = none ↔
      jsToLower raw.tagOf = "script" ∨ jsToLower raw.tagOf = "style" := by
  cases raw with
  | mk tag attrs textContent children =>
    show cleanElement (RawNode.mk tag attrs textContent children) = none ↔ _
    rw [cleanElement]
    by_cases h : (jsToLower tag == "script" || jsToLower tag == "style") = true
    · rw [if_pos h]
      simp only [Bool.or_eq_true, beq_iff_eq] at h
      simpa [RawNode.tagOf] using h
    · rw [if_neg h]
      simp only [Bool.or_eq_true, beq_iff_eq] at h
      push_neg at h
      simp [RawNode.tagOf, h.1, h.2]

/-- C9 counterexample: a div containing a single empty div — the child keeps
no attributes, no text and no descendants — still retains that child in the
summarized children list, refuting "any child subtree that reduces to
nothing is omitted from the parent's children list". -/
theorem C9_counterexample :
    goodTreeOpt (cleanElement
      (RawNode.mk "div" [] "" [RawNode.mk "div" [] "" []])) = false := by
  decide

/-- C9 (amended): the summarizer omits a child from the parent's children
list exactly when the child is a script or style element: `cleanElement`
returns the dropped marker `none` only for script/style tags, a retained
node's children list is precisely `cleanChildren` of its raw children, and
that list has one entry per non-script/style raw child — so a child subtree
that reduces to nothing (no attributes, no text, no retained descendants)
is still retained as a bare tag-only node. -/
theorem C9_children_retention (raw : RawNode) :
    (cleanElement raw = none ↔
      jsToLower raw.tagOf = "script" ∨ jsToLower raw.tagOf = "style") ∧
    (∀ n, cleanElement raw = some n →
      n.childrenOf = cleanChildren raw.childrenOf) ∧
    (∀ cs : List RawNode, (cleanChildren cs).length =
      (cs.filter (fun c => !(jsToLower c.tagOf == "script" ||
        jsToLower c.tagOf == "style"))).length) := by
  refine ⟨cleanElement_none_iff raw, ?_, ?_⟩
  · intro n hn
    cases raw with
    | mk tag attrs textContent children =>
      rw [cleanElement] at hn
      by_cases h :
          (jsToLower tag == "script" || jsToLower tag == "style") = true
      · rw [if_pos h] at hn
        exact absurd hn (by simp)
      · rw [if_neg h] at hn
        injection hn with hn'
        rw [← hn']
        rfl
  · intro cs
    induction cs with
    | nil => rfl
    | cons c rest ih =>
      rw [cleanChildren]
      by_cases h : (jsToLower c.tagOf == "script" ||
          jsToLower c.tagOf == "style") = true
      · have hc : cleanElement c = none := by
          rw [cleanElement_none_iff c]
          simpa using h
        rw [hc, List.filter_cons, if_neg (by simp [h]), ih]
      · have hc : cleanElement c ≠ none := by
          rw [ne_eq, cleanElement_none_iff c]
          simp only [Bool.or_eq_true, beq_iff_eq] at h
          push_neg at h
          simp [h.1, h.2]
        rcases hsome : cleanElement c with _ | n
        · exact absurd hsome hc
        · show (n :: cleanChildren rest).length = _
          rw [List.filter_cons, if_pos (by simp [h])]
          simp [ih]

/-- C9 witness: a parent of one script child and one anchor child retains
exactly the anchor. -/
theorem C9_witness :
    (cleanChildren
      [RawNode.mk "script" [] "var x" [],
       RawNode.mk "a" [("href", "/home")] "Home" []]).length =
    ([RawNode.mk "script" [] "var x" [],
      RawNode.mk "a" [("href", "/home")] "Home" []].filter
        (fun c => !(jsToLower c.tagOf == "script" ||
          jsToLower c.tagOf == "style"))).length := by
  have h := (C9_children_retention (RawNode.mk "div" [] "" [])).2.2
    [RawNode.mk "script" [] "var x" [],
     RawNode.mk "a" [("href", "/home")] "Home" []]
  exact h

end ScriptForge
